import Mathlib

/-!
Shallow embedding of the posts API of Django-China-API (`posts/views.py`):
the listing order of `PostViewSet.queryset`, the `popular` endpoint, and the
tag validation performed by `create`/`perform_create` and
`update`/`perform_update`.  Times (`created_time`, reply `submit_date`,
`now()`) are modelled as integers (seconds); a missing aggregate
(`Max('replies__submit_date')` over no replies, SQL `NULL`) is `Option.none`.
-/

namespace DjangoChina

/-- A registered tag (`tags.models.Tag`): identity plus a unique name.
Modelled from the spec: the tag model itself is outside `views.py`;
the spec describes it as "identity + unique `name`". -/
structure Tag where
  id : Nat
  name : String
deriving DecidableEq, Repr

/-- A post row together with its owned replies.  Modelled from the spec:
`posts/models.py` is outside `views.py`; the spec gives a Post
identity, title/body content, `author`, `pinned`, `created_time`, a set of
tag references and owned replies each carrying a `submit_date`.  The
`public` flag models membership in the `Post.public` manager (the
"publicly visible" predicate of the spec); `replies` is the list of the
post's replies' `submit_date` values. -/
structure Post where
  id : Nat
  title : String
  author : Nat
  pinned : Bool
  created_time : Int
  tags : List Nat
  public : Bool
  replies : List Int
deriving DecidableEq, Repr

/-- The `Max('replies__submit_date')` annotation: the maximum
`submit_date` among the post's replies, `none` when the post has no
replies (SQL `NULL`). -/
def latestReplyTime (p : Post) : Option Int :=
  p.replies.foldr (fun t acc => match acc with
    | none => some t
    | some m => some (max t m)) none

/-- First sort key of `order_by('-pinned', ...)`: descending on `pinned`,
so pinned posts get the smaller key. -/
def pinKey (p : Post) : Int :=
  if p.pinned then 0 else 1

/-- Null-detection component of `-latest_reply_time`: posts with no
replies (`NULL` aggregate) sort after all posts with replies. -/
def nullKey (p : Post) : Int :=
  match latestReplyTime p with
  | none => 1
  | some _ => 0

/-- Value component of `-latest_reply_time`: descending on the latest
reply time (negated for an ascending comparison). -/
def timeKey (p : Post) : Int :=
  match latestReplyTime p with
  | none => 0
  | some t => -t

/-- `-created_time`: descending on creation time. -/
def createdKey (p : Post) : Int :=
  -p.created_time

/-- The composite sort key of
`order_by('-pinned', '-latest_reply_time', '-created_time')`, as a
lexicographic 4-tuple compared ascendingly. -/
def listKey (p : Post) : Int ×ₗ Int ×ₗ Int ×ₗ Int :=
  toLex (pinKey p, toLex (nullKey p, toLex (timeKey p, createdKey p)))

/-- The listing comparison relation induced by `listKey`. -/
def listingLE (a b : Post) : Prop :=
  listKey a ≤ listKey b

instance : DecidableRel listingLE :=
  fun a b => inferInstanceAs (Decidable (listKey a ≤ listKey b))

instance : IsTotal Post listingLE :=
  ⟨fun a b => le_total (listKey a) (listKey b)⟩

instance : IsTrans Post listingLE :=
  ⟨fun _ _ _ hab hbc => le_trans hab hbc⟩

/-- The general listing of `PostViewSet.queryset`: all posts sorted by the
composite key. -/
def listing (posts : List Post) : List Post :=
  List.insertionSort listingLE posts

theorem listing_sorted (posts : List Post) :
    List.Sorted listingLE (listing posts) :=
  List.sorted_insertionSort listingLE posts

theorem listing_perm (posts : List Post) :
    List.Perm (listing posts) posts :=
  List.perm_insertionSort listingLE posts

/-- In the sorted listing, an element with strictly smaller key precedes
any element with strictly larger key. -/
theorem idx_lt_of_listKey_lt (posts : List Post)
    (i j : Fin (listing posts).length)
    (h : listKey ((listing posts).get i) < listKey ((listing posts).get j)) :
    (i : Nat) < (j : Nat) := by
  by_contra hle
  push_neg at hle
  rcases Nat.lt_or_ge (j : Nat) (i : Nat) with hji | hij
  · have hr := (listing_sorted posts).rel_get_of_lt (a := j) (b := i) hji
    exact absurd (lt_of_lt_of_le h hr) (lt_irrefl _)
  · have : (i : Nat) = (j : Nat) := le_antisymm hij hle
    have : i = j := Fin.ext this
    subst this
    exact absurd h (lt_irrefl _)

/-- A pinned post has strictly smaller composite key than an unpinned one. -/
theorem listKey_lt_of_pin (a b : Post) (ha : a.pinned = true)
    (hb : b.pinned = false) : listKey a < listKey b := by
  unfold listKey
  refine (Prod.Lex.lt_iff _ _).mpr (Or.inl ?_)
  simp [pinKey, ha, hb]

/-- With equal pin status, a strictly more recent latest reply gives a
strictly smaller composite key. -/
theorem listKey_lt_of_time (a b : Post) (hpin : a.pinned = b.pinned)
    (ta tb : Int) (hta : latestReplyTime a = some ta)
    (htb : latestReplyTime b = some tb) (h : tb < ta) :
    listKey a < listKey b := by
  unfold listKey
  refine (Prod.Lex.lt_iff _ _).mpr (Or.inr ⟨by simp [pinKey, hpin], ?_⟩)
  refine (Prod.Lex.lt_iff _ _).mpr (Or.inr ⟨by simp [nullKey, hta, htb], ?_⟩)
  refine (Prod.Lex.lt_iff _ _).mpr (Or.inl ?_)
  simp [timeKey, hta, htb]
  omega

/-- With equal pin status, a post with replies has strictly smaller
composite key than a post with no replies. -/
theorem listKey_lt_of_hasReplies (a b : Post) (hpin : a.pinned = b.pinned)
    (ta : Int) (hta : latestReplyTime a = some ta)
    (htb : latestReplyTime b = none) : listKey a < listKey b := by
  unfold listKey
  refine (Prod.Lex.lt_iff _ _).mpr (Or.inr ⟨by simp [pinKey, hpin], ?_⟩)
  refine (Prod.Lex.lt_iff _ _).mpr (Or.inl ?_)
  simp [nullKey, hta, htb]

/-- With equal pin status and equal latest reply time, more recent
creation gives a strictly smaller composite key. -/
theorem listKey_lt_of_created (a b : Post) (hpin : a.pinned = b.pinned)
    (hlat : latestReplyTime a = latestReplyTime b)
    (h : b.created_time < a.created_time) : listKey a < listKey b := by
  unfold listKey
  refine (Prod.Lex.lt_iff _ _).mpr (Or.inr ⟨by simp [pinKey, hpin], ?_⟩)
  refine (Prod.Lex.lt_iff _ _).mpr (Or.inr ⟨by simp [nullKey, hlat], ?_⟩)
  refine (Prod.Lex.lt_iff _ _).mpr (Or.inr ⟨by simp [timeKey, hlat], ?_⟩)
  simp [createdKey]
  omega

/-- One day in seconds, for the concrete scenarios. -/
def day : Int := 86400

/-- Scenario post A: pinned, no replies, created day 1. -/
def demoA : Post := ⟨1, "A", 1, true, 1 * day, [], true, []⟩

/-- Scenario post B: unpinned, one reply at day 5. -/
def demoB : Post := ⟨2, "B", 1, false, 2 * day, [], true, [5 * day]⟩

/-- Scenario post C: unpinned, one reply at day 3. -/
def demoC : Post := ⟨3, "C", 1, false, 2 * day, [], true, [3 * day]⟩

/-- Unpinned post with no replies, created day 2. -/
def demoD : Post := ⟨4, "D", 1, false, 2 * day, [], true, []⟩

/-- Unpinned post with no replies, created day 1. -/
def demoE : Post := ⟨5, "E", 1, false, 1 * day, [], true, []⟩

/-- C1: the general listing returns posts in the composite order
(`pinned` DESC, `latest_reply_time` DESC with replyless posts last,
`created_time` DESC): a pinned post precedes every unpinned post; among
posts with equal pin status the more recent latest reply comes first and
replyless posts come last; remaining ties break by `created_time`
descending; and for A (pinned, no replies, day 1), B (unpinned, reply at
day 5), C (unpinned, reply at day 3) the listing order is A, B, C. -/
theorem listing_composite_order :
    (∀ (posts : List Post) (i j : Fin (listing posts).length),
        ((listing posts).get i).pinned = true →
        ((listing posts).get j).pinned = false → (i : Nat) < j)
  ∧ (∀ (posts : List Post) (i j : Fin (listing posts).length) (ta tb : Int),
        ((listing posts).get i).pinned = ((listing posts).get j).pinned →
        latestReplyTime ((listing posts).get i) = some ta →
        latestReplyTime ((listing posts).get j) = some tb →
        tb < ta → (i : Nat) < j)
  ∧ (∀ (posts : List Post) (i j : Fin (listing posts).length) (ta : Int),
        ((listing posts).get i).pinned = ((listing posts).get j).pinned →
        latestReplyTime ((listing posts).get i) = some ta →
        latestReplyTime ((listing posts).get j) = none → (i : Nat) < j)
  ∧ (∀ (posts : List Post) (i j : Fin (listing posts).length),
        ((listing posts).get i).pinned = ((listing posts).get j).pinned →
        latestReplyTime ((listing posts).get i) =
          latestReplyTime ((listing posts).get j) →
        ((listing posts).get j).created_time <
          ((listing posts).get i).created_time → (i : Nat) < j)
  ∧ listing [demoC, demoA, demoB] = [demoA, demoB, demoC] := by
  refine ⟨?_, ?_, ?_, ?_, by decide⟩
  · intro posts i j hi hj
    exact idx_lt_of_listKey_lt posts i j (listKey_lt_of_pin _ _ hi hj)
  · intro posts i j ta tb hpin hta htb h
    exact idx_lt_of_listKey_lt posts i j (listKey_lt_of_time _ _ hpin ta tb hta htb h)
  · intro posts i j ta hpin hta htb
    exact idx_lt_of_listKey_lt posts i j (listKey_lt_of_hasReplies _ _ hpin ta hta htb)
  · intro posts i j hpin hlat h
    exact idx_lt_of_listKey_lt posts i j (listKey_lt_of_created _ _ hpin hlat h)

/-- Concrete instantiation of the listing-order theorem: on small
concrete inputs each precedence rule places the expected post first. -/
theorem listing_composite_order_witness :
    ((listing [demoB, demoA]).get ⟨0, by decide⟩).pinned = true
  ∧ ((listing [demoB, demoA]).get ⟨1, by decide⟩).pinned = false
  ∧ latestReplyTime demoB = some (5 * day)
  ∧ latestReplyTime demoD = none
  ∧ ((0 : Nat) < 1 ∧ (0 : Nat) < 1 ∧ (0 : Nat) < 1 ∧ (0 : Nat) < 1) :=
  ⟨by decide, by decide, by decide, by decide,
    listing_composite_order.1 [demoB, demoA] ⟨0, by decide⟩ ⟨1, by decide⟩
      (by decide) (by decide),
    listing_composite_order.2.1 [demoC, demoB] ⟨0, by decide⟩ ⟨1, by decide⟩
      (5 * day) (3 * day) (by decide) (by decide) (by decide) (by decide),
    listing_composite_order.2.2.1 [demoD, demoB] ⟨0, by decide⟩ ⟨1, by decide⟩
      (5 * day) (by decide) (by decide) (by decide),
    listing_composite_order.2.2.2.1 [demoE, demoD] ⟨0, by decide⟩ ⟨1, by decide⟩
      (by decide) (by decide) (by decide)⟩

/-- `datetime.timedelta(days=2)`: the 48-hour popularity window, in
seconds. -/
def twoDays : Int := 2 * 86400

/-- The filter of `PostViewSet.popular`:
`num_replies__gt=0, latest_reply_time__gt=now()-2d, latest_reply_time__lt=now()`.
A `NULL` aggregate (no replies) satisfies neither comparison. -/
def popularPred (now : Int) (p : Post) : Bool :=
  decide (0 < p.replies.length) &&
    (match latestReplyTime p with
     | none => false
     | some t => decide (now - twoDays < t) && decide (t < now))

/-- The composite sort key of `order_by('-num_replies', '-latest_reply_time')`,
compared ascendingly. -/
def popKey (p : Post) : Int ×ₗ Int ×ₗ Int :=
  toLex (-(p.replies.length : Int), toLex (nullKey p, timeKey p))

/-- The popularity comparison relation induced by `popKey`. -/
def popularLE (a b : Post) : Prop :=
  popKey a ≤ popKey b

instance : DecidableRel popularLE :=
  fun a b => inferInstanceAs (Decidable (popKey a ≤ popKey b))

instance : IsTotal Post popularLE :=
  ⟨fun a b => le_total (popKey a) (popKey b)⟩

instance : IsTrans Post popularLE :=
  ⟨fun _ _ _ hab hbc => le_trans hab hbc⟩

/-- `PostViewSet.popular`: start from the publicly visible posts
(`Post.public`, modelled from the spec as the posts with `public = true`),
keep those with replies whose latest reply falls strictly inside the
48-hour window, sort by reply count then latest reply time (both
descending), and keep the top 10. -/
def popular (posts : List Post) (now : Int) : List Post :=
  (List.insertionSort popularLE
    ((posts.filter fun p => p.public).filter (popularPred now))).take 10

theorem popular_sorted (posts : List Post) (now : Int) :
    List.Sorted popularLE (popular posts now) :=
  (List.sorted_insertionSort popularLE _).sublist (List.take_sublist _ _)

/-- In the popularity list, an element with strictly smaller key precedes
any element with strictly larger key. -/
theorem idx_lt_of_popKey_lt (posts : List Post) (now : Int)
    (i j : Fin (popular posts now).length)
    (h : popKey ((popular posts now).get i) <
      popKey ((popular posts now).get j)) :
    (i : Nat) < (j : Nat) := by
  by_contra hle
  push_neg at hle
  rcases Nat.lt_or_ge (j : Nat) (i : Nat) with hji | hij
  · have hr := (popular_sorted posts now).rel_get_of_lt (a := j) (b := i) hji
    exact absurd (lt_of_lt_of_le h hr) (lt_irrefl _)
  · have : (i : Nat) = (j : Nat) := le_antisymm hij hle
    have : i = j := Fin.ext this
    subst this
    exact absurd h (lt_irrefl _)

/-- A strictly larger reply count gives a strictly smaller popularity
key. -/
theorem popKey_lt_of_count (a b : Post)
    (h : b.replies.length < a.replies.length) : popKey a < popKey b := by
  unfold popKey
  refine (Prod.Lex.lt_iff _ _).mpr (Or.inl ?_)
  omega

/-- With equal reply counts, a strictly more recent latest reply gives a
strictly smaller popularity key. -/
theorem popKey_lt_of_time (a b : Post)
    (hcount : a.replies.length = b.replies.length)
    (ta tb : Int) (hta : latestReplyTime a = some ta)
    (htb : latestReplyTime b = some tb) (h : tb < ta) :
    popKey a < popKey b := by
  unfold popKey
  refine (Prod.Lex.lt_iff _ _).mpr (Or.inr ⟨by simp [hcount], ?_⟩)
  refine (Prod.Lex.lt_iff _ _).mpr (Or.inr ⟨by simp [nullKey, hta, htb], ?_⟩)
  simp [timeKey, hta, htb]
  omega

/-- C2: `popular` includes a post only if its reply count is strictly
positive and its latest reply time lies strictly inside the open interval
(now - 48h, now); posts with no replies, posts whose replies are all older
than 48 hours, and posts whose latest reply is at or after `now` are
excluded. -/
theorem popular_window_filter (posts : List Post) (now : Int) (p : Post)
    (h : p ∈ popular posts now) :
    0 < p.replies.length ∧
      ∃ t, latestReplyTime p = some t ∧ now - twoDays < t ∧ t < now := by
  have h1 : p ∈ List.insertionSort popularLE
      ((posts.filter fun q => q.public).filter (popularPred now)) :=
    List.mem_of_mem_take h
  have h2 : p ∈ (posts.filter fun q => q.public).filter (popularPred now) :=
    (List.perm_insertionSort popularLE _).mem_iff.mp h1
  have h3 : popularPred now p = true := (List.mem_filter.mp h2).2
  unfold popularPred at h3
  cases hlt : latestReplyTime p with
  | none => rw [hlt] at h3; simp at h3
  | some t =>
      rw [hlt] at h3
      simp only [Bool.and_eq_true, decide_eq_true_eq] at h3
      exact ⟨h3.1, t, rfl, h3.2.1, h3.2.2⟩

/-- Scenario post X: 11 replies, all within the last 24 hours of
`now = 10 * day`. -/
def demoX : Post :=
  ⟨6, "X", 1, false, 9 * day, [], true,
    [10 * day - 3600, 10 * day - 7200, 10 * day - 10800, 10 * day - 14400,
     10 * day - 18000, 10 * day - 21600, 10 * day - 25200, 10 * day - 28800,
     10 * day - 32400, 10 * day - 36000, 10 * day - 39600]⟩

/-- Scenario post Y: 2 replies within the last 24 hours of
`now = 10 * day`. -/
def demoY : Post :=
  ⟨7, "Y", 1, false, 9 * day, [], true, [10 * day - 1800, 10 * day - 5400]⟩

/-- Scenario post Z: 5 replies, all 3 days old at `now = 10 * day`. -/
def demoZ : Post :=
  ⟨8, "Z", 1, false, 6 * day, [], true,
    [7 * day - 100, 7 * day - 200, 7 * day - 300, 7 * day - 400,
     7 * day - 500]⟩

/-- Like Y, 2 replies but slightly more recent ones. -/
def demoY2 : Post :=
  ⟨9, "Y2", 1, false, 9 * day, [], true, [10 * day - 900, 10 * day - 2700]⟩

/-- Concrete instantiation of the popularity window filter: X (replies
within the last 24h) is a member of `popular` and satisfies the window
conditions. -/
theorem popular_window_filter_witness :
    demoX ∈ popular [demoX] (10 * day) ∧
      (0 < demoX.replies.length ∧
        ∃ t, latestReplyTime demoX = some t ∧
          10 * day - twoDays < t ∧ t < 10 * day) :=
  ⟨by decide, popular_window_filter [demoX] (10 * day) demoX (by decide)⟩

/-- C3: `popular` orders the eligible posts by reply count descending and
then latest reply time descending, returns at most 10 posts, and on the
scenario X (11 recent replies), Y (2 recent replies), Z (5 stale replies)
it returns exactly [X, Y]. -/
theorem popular_rank_and_limit :
    (∀ (posts : List Post) (now : Int), (popular posts now).length ≤ 10)
  ∧ (∀ (posts : List Post) (now : Int)
        (i j : Fin (popular posts now).length),
        ((popular posts now).get j).replies.length <
          ((popular posts now).get i).replies.length → (i : Nat) < j)
  ∧ (∀ (posts : List Post) (now : Int)
        (i j : Fin (popular posts now).length) (ta tb : Int),
        ((popular posts now).get i).replies.length =
          ((popular posts now).get j).replies.length →
        latestReplyTime ((popular posts now).get i) = some ta →
        latestReplyTime ((popular posts now).get j) = some tb →
        tb < ta → (i : Nat) < j)
  ∧ popular [demoZ, demoX, demoY] (10 * day) = [demoX, demoY] := by
  refine ⟨?_, ?_, ?_, by decide⟩
  · intro posts now
    simp [popular]
  · intro posts now i j h
    exact idx_lt_of_popKey_lt posts now i j (popKey_lt_of_count _ _ h)
  · intro posts now i j ta tb hcount hta htb h
    exact idx_lt_of_popKey_lt posts now i j
      (popKey_lt_of_time _ _ hcount ta tb hta htb h)

/-- Concrete instantiation of the popularity ranking: more replies rank
first, and with equal counts the more recent latest reply ranks first. -/
theorem popular_rank_and_limit_witness :
    (popular [] 0).length ≤ 10
  ∧ ((popular [demoY, demoX] (10 * day)).get
      ⟨1, by decide⟩).replies.length <
      ((popular [demoY, demoX] (10 * day)).get ⟨0, by decide⟩).replies.length
  ∧ ((0 : Nat) < 1 ∧ (0 : Nat) < 1) :=
  ⟨popular_rank_and_limit.1 [] 0,
    by decide,
    popular_rank_and_limit.2.1 [demoY, demoX] (10 * day)
      ⟨0, by decide⟩ ⟨1, by decide⟩ (by decide),
    popular_rank_and_limit.2.2.1 [demoY, demoY2] (10 * day)
      ⟨0, by decide⟩ ⟨1, by decide⟩ (10 * day - 900) (10 * day - 1800)
      (by decide) (by decide) (by decide) (by decide)⟩

/-- An error response of the view layer: a DRF `ValidationError` with its
field-scoped detail (`detail={field: message}`), or the 404 raised by
`self.get_object()`. -/
inductive ApiError where
  | validationError (field : String) (message : String)
  | notFound
deriving DecidableEq, Repr

/-- The detail key used by every tag `ValidationError` in `views.py`. -/
def tagField : String := "标签"

/-- `'请选择至少一个标签'`: the message raised for a missing or empty tag
selection. -/
def emptyTagMsg : String := "请选择至少一个标签"

/-- `'最多可以选择三个标签'`: the message raised for more than three
tags. -/
def tooManyTagsMsg : String := "最多可以选择三个标签"

/-- `'标签不存在'`: the message raised when a tag name fails to
resolve. -/
def unknownTagMsg : String := "标签不存在"

/-- The `EmptyTagSelection` error of the spec's taxonomy. -/
def emptyTagError : ApiError := .validationError tagField emptyTagMsg

/-- The `TooManyTags` error of the spec's taxonomy. -/
def tooManyTagsError : ApiError := .validationError tagField tooManyTagsMsg

/-- The `UnknownTag` error of the spec's taxonomy, exactly as the code
raises it: a constant detail dict. -/
def unknownTagError : ApiError := .validationError tagField unknownTagMsg

/-- `Tag.objects.get(name=name)`: succeeds only when exactly one
registered tag carries the name (`DoesNotExist` and
`MultipleObjectsReturned` are both swept up by the views' bare
`except Exception`). -/
def tagGet (registry : List Tag) (name : String) : Option Tag :=
  match registry.filter (fun t => t.name == name) with
  | [t] => some t
  | _ => none

/-- The resolution loop shared by `perform_create` and `perform_update`:
look each name up in order and fail with the constant tag-not-found error
at the first name with no tag. -/
def resolveTags (registry : List Tag) (names : List String) :
    Except ApiError (List Tag) :=
  match names with
  | [] => .ok []
  | n :: rest =>
    match tagGet registry n with
    | none => .error unknownTagError
    | some t =>
      match resolveTags registry rest with
      | .error e => .error e
      | .ok ts => .ok (t :: ts)

/-- The tag checks at the top of `PostViewSet.update`:
`if partial and tags_data is None: pass`, `elif not tags_data: raise`,
`elif len(tags_data) > 3: raise`.  `patch` is `True` on PATCH. -/
def tagCountCheck (patch : Bool) (tagsData : Option (List String)) :
    Option ApiError :=
  match tagsData with
  | none => if patch then none else some emptyTagError
  | some [] => some emptyTagError
  | some names => if 3 < names.length then some tooManyTagsError else none

/-- The persistent state the views read and write: the post table and the
tag registry. -/
structure Store where
  posts : List Post
  registry : List Tag
deriving DecidableEq, Repr

/-- A create payload; `tags = none` models a payload whose `tags` field is
absent (`request.data.get('tags')` returns `None`). -/
structure CreateRequest where
  title : String
  tags : Option (List String)
deriving DecidableEq, Repr

/-- The post persisted by `serializer.save(author=..., tags=...)` on
create. -/
def mkPost (newId : Nat) (req : CreateRequest) (actor : Nat) (now : Int)
    (tags : List Tag) : Post :=
  ⟨newId, req.title, actor, false, now, tags.map Tag.id, true, []⟩

/-- `PostViewSet.create` plus `perform_create` as a state transformer: the
store after the request, paired with the response.  Each `raise` hands
back the store exactly as it stood at that point of execution (all raises
in the source happen before `serializer.save`). -/
def createOp (store : Store) (actor : Nat) (req : CreateRequest)
    (now : Int) (newId : Nat) : Store × Except ApiError Post :=
  match req.tags with
  | none => (store, .error emptyTagError)
  | some [] => (store, .error emptyTagError)
  | some names =>
    if 3 < names.length then (store, .error tooManyTagsError)
    else
      match resolveTags store.registry names with
      | .error e => (store, .error e)
      | .ok tags =>
        let p := mkPost newId req actor now tags
        ({ store with posts := store.posts ++ [p] }, .ok p)

/-- An update payload; `none` fields are absent from the request body. -/
structure UpdateRequest where
  title : Option String
  tags : Option (List String)
deriving DecidableEq, Repr

/-- Persisting an updated row: replace the stored post carrying the same
id. -/
def saveStore (store : Store) (p : Post) : Store :=
  { store with
    posts := store.posts.map (fun q => if q.id = p.id then p else q) }

/-- `PostViewSet.update` followed by `perform_update`, as a state
transformer: the tag-count checks run first, then `self.get_object()`
(404 when the id is absent), then — only when the `tags` field is present
and non-empty — tag resolution, and finally `serializer.save`. -/
def updateOp (store : Store) (postId : Nat) (patch : Bool)
    (req : UpdateRequest) : Store × Except ApiError Post :=
  match tagCountCheck patch req.tags with
  | some e => (store, .error e)
  | none =>
    match store.posts.find? (fun q => q.id == postId) with
    | none => (store, .error .notFound)
    | some inst =>
      match req.tags with
      | some (n :: rest) =>
        match resolveTags store.registry (n :: rest) with
        | .error e => (store, .error e)
        | .ok tags =>
          let p := { inst with title := req.title.getD inst.title,
                               tags := tags.map Tag.id }
          (saveStore store p, .ok p)
      | _ =>
        let p := { inst with title := req.title.getD inst.title }
        (saveStore store p, .ok p)

/-- If some name in the list has no registered tag, resolution fails with
the constant tag-not-found error. -/
theorem resolveTags_unknown (registry : List Tag) (names : List String)
    (h : ∃ n ∈ names, tagGet registry n = none) :
    resolveTags registry names = .error unknownTagError := by
  induction names with
  | nil => simp at h
  | cons n rest ih =>
    rcases h with ⟨m, hm, hnone⟩
    rcases List.mem_cons.mp hm with rfl | hrest
    · simp [resolveTags, hnone]
    · cases hg : tagGet registry n with
      | none => simp [resolveTags, hg]
      | some t => simp [resolveTags, hg, ih ⟨m, hrest, hnone⟩]

/-- A demo registered tag. -/
def demoTag : Tag := ⟨1, "tech"⟩

/-- A demo store: empty post table, one registered tag. -/
def demoStore : Store := ⟨[], [demoTag]⟩

/-- Create payload with the `tags` field absent. -/
def reqNoTags : CreateRequest := ⟨"hello", none⟩

/-- Create payload with an empty `tags` list. -/
def reqEmptyTags : CreateRequest := ⟨"hello", some []⟩

/-- Create payload with four tag names. -/
def reqFourTags : CreateRequest := ⟨"hello", some ["a", "b", "c", "d"]⟩

/-- Create payload naming a tag that is not registered. -/
def reqUnknownA : CreateRequest := ⟨"hello", some ["missing-a"]⟩

/-- Create payload naming a different unregistered tag. -/
def reqUnknownB : CreateRequest := ⟨"hello", some ["missing-b"]⟩

/-- Create payload naming the registered tag. -/
def reqGood : CreateRequest := ⟨"hello", some ["tech"]⟩

/-- C4: a create with an absent or empty tag selection fails with
`EmptyTagSelection`; with more than 3 names it fails with `TooManyTags`;
with an unresolvable name it fails with `UnknownTag`; otherwise the post
is persisted with exactly the resolved tag set and the requesting actor
as author. -/
theorem create_tag_validation :
    (∀ (store : Store) (actor : Nat) (req : CreateRequest) (now : Int)
        (newId : Nat), (req.tags = none ∨ req.tags = some []) →
        createOp store actor req now newId = (store, .error emptyTagError))
  ∧ (∀ (store : Store) (actor : Nat) (req : CreateRequest) (now : Int)
        (newId : Nat) (names : List String), req.tags = some names →
        3 < names.length →
        createOp store actor req now newId =
          (store, .error tooManyTagsError))
  ∧ (∀ (store : Store) (actor : Nat) (req : CreateRequest) (now : Int)
        (newId : Nat) (names : List String), req.tags = some names →
        names.length ≤ 3 → (∃ n ∈ names, tagGet store.registry n = none) →
        createOp store actor req now newId =
          (store, .error unknownTagError))
  ∧ (∀ (store : Store) (actor : Nat) (req : CreateRequest) (now : Int)
        (newId : Nat) (names : List String) (tags : List Tag),
        req.tags = some names → names ≠ [] → names.length ≤ 3 →
        resolveTags store.registry names = .ok tags →
        createOp store actor req now newId =
          ({ store with
              posts := store.posts ++ [mkPost newId req actor now tags] },
            .ok (mkPost newId req actor now tags))
        ∧ (mkPost newId req actor now tags).author = actor
        ∧ (mkPost newId req actor now tags).tags = tags.map Tag.id) := by
  refine ⟨?_, ?_, ?_, ?_⟩
  · intro store actor req now newId h
    rcases h with h | h <;> simp [createOp, h]
  · intro store actor req now newId names htags h3
    cases names with
    | nil => simp at h3
    | cons a rest =>
      simp only [createOp, htags]
      rw [if_pos h3]
  · intro store actor req now newId names htags hlen hex
    cases names with
    | nil => rcases hex with ⟨n, hn, _⟩; simp at hn
    | cons a rest =>
      have h3 : ¬ 3 < (a :: rest).length := by omega
      simp only [createOp, htags]
      rw [if_neg h3, resolveTags_unknown _ _ hex]
  · intro store actor req now newId names tags htags hne hlen hres
    cases names with
    | nil => exact absurd rfl hne
    | cons a rest =>
      have h3 : ¬ 3 < (a :: rest).length := by omega
      refine ⟨?_, rfl, rfl⟩
      simp only [createOp, htags]
      rw [if_neg h3, hres]

/-- Concrete instantiation of the create validation rules: each error
path and the success path on a one-tag registry. -/
theorem create_tag_validation_witness :
    createOp demoStore 1 reqNoTags 0 100 = (demoStore, .error emptyTagError)
  ∧ createOp demoStore 1 reqFourTags 0 100 =
      (demoStore, .error tooManyTagsError)
  ∧ createOp demoStore 1 reqUnknownA 0 100 =
      (demoStore, .error unknownTagError)
  ∧ createOp demoStore 1 reqGood 0 100 =
      ({ demoStore with
          posts := demoStore.posts ++ [mkPost 100 reqGood 1 0 [demoTag]] },
        .ok (mkPost 100 reqGood 1 0 [demoTag])) :=
  ⟨create_tag_validation.1 demoStore 1 reqNoTags 0 100 (Or.inl rfl),
   create_tag_validation.2.1 demoStore 1 reqFourTags 0 100
     ["a", "b", "c", "d"] rfl (by decide),
   create_tag_validation.2.2.1 demoStore 1 reqUnknownA 0 100 ["missing-a"]
     rfl (by decide) ⟨"missing-a", by decide, by decide⟩,
   (create_tag_validation.2.2.2 demoStore 1 reqGood 0 100 ["tech"] [demoTag]
     rfl (by decide) (by decide) rfl).1⟩

/-- Branch equation: a failing tag-count check aborts the update with its
error. -/
theorem updateOp_count_err (store : Store) (pid : Nat) (patch : Bool)
    (req : UpdateRequest) (e : ApiError)
    (hc : tagCountCheck patch req.tags = some e) :
    updateOp store pid patch req = (store, .error e) := by
  unfold updateOp; rw [hc]

/-- Branch equation: with the count check passed and no post under the
id, the update 404s. -/
theorem updateOp_notFound (store : Store) (pid : Nat) (patch : Bool)
    (req : UpdateRequest)
    (hc : tagCountCheck patch req.tags = none)
    (hf : store.posts.find? (fun q => q.id == pid) = none) :
    updateOp store pid patch req = (store, .error .notFound) := by
  unfold updateOp; rw [hc, hf]

/-- Branch equation: with the `tags` field absent, `perform_update` saves
without touching tags. -/
theorem updateOp_noTags (store : Store) (pid : Nat) (patch : Bool)
    (req : UpdateRequest) (inst : Post)
    (hc : tagCountCheck patch req.tags = none)
    (hf : store.posts.find? (fun q => q.id == pid) = some inst)
    (htags : req.tags = none) :
    updateOp store pid patch req =
      (saveStore store { inst with title := req.title.getD inst.title },
        .ok { inst with title := req.title.getD inst.title }) := by
  unfold updateOp; rw [hc, hf, htags]

/-- Branch equation: a failing tag resolution aborts the update with its
error. -/
theorem updateOp_resolve_err (store : Store) (pid : Nat) (patch : Bool)
    (req : UpdateRequest) (inst : Post) (a : String) (rest : List String)
    (e : ApiError)
    (hc : tagCountCheck patch req.tags = none)
    (hf : store.posts.find? (fun q => q.id == pid) = some inst)
    (htags : req.tags = some (a :: rest))
    (hres : resolveTags store.registry (a :: rest) = .error e) :
    updateOp store pid patch req = (store, .error e) := by
  unfold updateOp
  rw [hc]; dsimp only
  rw [hf]; dsimp only
  rw [htags]; dsimp only
  rw [hres]

/-- Branch equation: a successful tag resolution saves the post with the
resolved tags. -/
theorem updateOp_resolve_ok (store : Store) (pid : Nat) (patch : Bool)
    (req : UpdateRequest) (inst : Post) (a : String) (rest : List String)
    (tags : List Tag)
    (hc : tagCountCheck patch req.tags = none)
    (hf : store.posts.find? (fun q => q.id == pid) = some inst)
    (htags : req.tags = some (a :: rest))
    (hres : resolveTags store.registry (a :: rest) = .ok tags) :
    updateOp store pid patch req =
      (saveStore store
          { inst with title := req.title.getD inst.title,
                      tags := tags.map Tag.id },
        .ok { inst with title := req.title.getD inst.title,
                        tags := tags.map Tag.id }) := by
  unfold updateOp
  rw [hc]; dsimp only
  rw [hf]; dsimp only
  rw [htags]; dsimp only
  rw [hres]

/-- C5: on a partial update whose payload omits the `tags` field entirely,
tag validation is skipped — the only possible error is the 404 — and every
stored post keeps its tag set; a partial update with a present-but-empty
`tags` field fails with `EmptyTagSelection`, and one with more than 3
names fails with `TooManyTags`. -/
theorem patch_update_tag_rules :
    (∀ (store : Store) (pid : Nat) (req : UpdateRequest),
        req.tags = none → (store.posts.map Post.id).Nodup →
        ((updateOp store pid true req).1.posts.map Post.tags =
            store.posts.map Post.tags
          ∧ ∀ e, (updateOp store pid true req).2 = .error e →
              e = ApiError.notFound))
  ∧ (∀ (store : Store) (pid : Nat) (req : UpdateRequest),
        req.tags = some [] →
        updateOp store pid true req = (store, .error emptyTagError))
  ∧ (∀ (store : Store) (pid : Nat) (req : UpdateRequest)
        (names : List String), req.tags = some names →
        3 < names.length →
        updateOp store pid true req = (store, .error tooManyTagsError)) := by
  refine ⟨?_, ?_, ?_⟩
  · intro store pid req htags hnodup
    have hc : tagCountCheck true req.tags = none := by rw [htags]; rfl
    cases hf : store.posts.find? (fun q => q.id == pid) with
    | none =>
      rw [updateOp_notFound store pid true req hc hf]
      exact ⟨rfl, fun e he => (Except.error.inj he).symm⟩
    | some inst =>
      rw [updateOp_noTags store pid true req inst hc hf htags]
      constructor
      · simp only [saveStore, List.map_map]
        apply List.map_congr_left
        intro q hq
        by_cases hid : q.id = inst.id
        · have hq_eq : q = inst :=
            List.inj_on_of_nodup_map hnodup hq
              (List.mem_of_find?_eq_some hf) hid
          subst hq_eq
          simp
        · simp [Function.comp, hid]
      · intro e he
        simp at he
  · intro store pid req htags
    simp [updateOp, htags, tagCountCheck]
  · intro store pid req names htags h3
    cases names with
    | nil => simp at h3
    | cons a rest =>
      simp only [updateOp, htags, tagCountCheck]
      rw [if_pos h3]

/-- A stored post carrying tag 1, used by the update witnesses. -/
def demoStored : Post := ⟨42, "old", 1, false, 0, [1], true, []⟩

/-- A store holding `demoStored` and the demo tag registry. -/
def demoStore2 : Store := ⟨[demoStored], [demoTag]⟩

/-- Update payload that only changes the title; `tags` absent. -/
def updNoTags : UpdateRequest := ⟨some "new", none⟩

/-- Update payload with a present-but-empty `tags` field. -/
def updEmptyTags : UpdateRequest := ⟨some "new", some []⟩

/-- Update payload with four tag names. -/
def updFourTags : UpdateRequest := ⟨some "new", some ["a", "b", "c", "d"]⟩

/-- Update payload naming an unregistered tag. -/
def updUnknown : UpdateRequest := ⟨some "new", some ["missing-a"]⟩

/-- Concrete instantiation of the partial-update tag rules on a one-post
store. -/
theorem patch_update_tag_rules_witness :
    (updateOp demoStore2 42 true updNoTags).1.posts.map Post.tags =
      demoStore2.posts.map Post.tags
  ∧ updateOp demoStore2 42 true updEmptyTags =
      (demoStore2, .error emptyTagError)
  ∧ updateOp demoStore2 42 true updFourTags =
      (demoStore2, .error tooManyTagsError) :=
  ⟨(patch_update_tag_rules.1 demoStore2 42 updNoTags rfl (by decide)).1,
   patch_update_tag_rules.2.1 demoStore2 42 updEmptyTags rfl,
   patch_update_tag_rules.2.2 demoStore2 42 updFourTags
     ["a", "b", "c", "d"] rfl (by decide)⟩

/-- C6: whenever a create or an update returns an error — in particular
whenever a tag validation rule fails — no write occurs: the resulting
store is exactly the store the request started from. -/
theorem no_write_on_validation_failure :
    (∀ (store : Store) (actor : Nat) (req : CreateRequest) (now : Int)
        (newId : Nat) (e : ApiError),
        (createOp store actor req now newId).2 = .error e →
        (createOp store actor req now newId).1 = store)
  ∧ (∀ (store : Store) (pid : Nat) (patch : Bool) (req : UpdateRequest)
        (e : ApiError),
        (updateOp store pid patch req).2 = .error e →
        (updateOp store pid patch req).1 = store) := by
  constructor
  · intro store actor req now newId e h
    cases htags : req.tags with
    | none => simp [createOp, htags]
    | some names =>
      cases names with
      | nil => simp [createOp, htags]
      | cons a rest =>
        by_cases h3 : 3 < (a :: rest).length
        · simp only [createOp, htags]
          rw [if_pos h3]
        · cases hres : resolveTags store.registry (a :: rest) with
          | error e2 =>
            simp only [createOp, htags]
            rw [if_neg h3, hres]
          | ok tags =>
            have heq : createOp store actor req now newId =
                ({ store with
                    posts :=
                      store.posts ++ [mkPost newId req actor now tags] },
                  .ok (mkPost newId req actor now tags)) := by
              unfold createOp
              rw [htags]; dsimp only
              rw [if_neg h3, hres]
            rw [heq] at h
            simp at h
  · intro store pid patch req e h
    cases hc : tagCountCheck patch req.tags with
    | some e2 => rw [updateOp_count_err store pid patch req e2 hc]
    | none =>
      cases hf : store.posts.find? (fun q => q.id == pid) with
      | none => rw [updateOp_notFound store pid patch req hc hf]
      | some inst =>
        cases htags : req.tags with
        | none =>
          rw [updateOp_noTags store pid patch req inst hc hf htags] at h
          simp at h
        | some names =>
          cases names with
          | nil =>
            rw [htags] at hc
            simp [tagCountCheck] at hc
          | cons a rest =>
            cases hres : resolveTags store.registry (a :: rest) with
            | error e2 =>
              rw [updateOp_resolve_err store pid patch req inst a rest e2
                hc hf htags hres]
            | ok tags =>
              rw [updateOp_resolve_ok store pid patch req inst a rest tags
                hc hf htags hres] at h
              simp at h

/-- Concrete instantiation: a failing create and a failing update leave
the store exactly as it was. -/
theorem no_write_on_validation_failure_witness :
    (createOp demoStore 1 reqNoTags 0 100).1 = demoStore
  ∧ (updateOp demoStore2 42 true updEmptyTags).1 = demoStore2 :=
  ⟨no_write_on_validation_failure.1 demoStore 1 reqNoTags 0 100
     emptyTagError rfl,
   no_write_on_validation_failure.2 demoStore2 42 true updEmptyTags
     emptyTagError rfl⟩

/-- C7 counterexample: two create requests failing on different unknown
tag names ("missing-a" vs "missing-b") produce identical errors — the
constant detail `标签: 标签不存在` — so the reported error does not carry
which supplied tag name failed to resolve. -/
theorem unknown_tag_error_carries_no_name :
    (createOp demoStore 1 reqUnknownA 0 100).2 =
      .error (ApiError.validationError tagField unknownTagMsg)
  ∧ (createOp demoStore 1 reqUnknownB 0 100).2 =
      .error (ApiError.validationError tagField unknownTagMsg)
  ∧ reqUnknownA.tags ≠ reqUnknownB.tags :=
  ⟨rfl, rfl, by decide⟩

/-- C7 (amended): when tag resolution fails on create or update because
some supplied name has no matching tag, the operation fails immediately —
with no store write — with the constant tag-not-found validation error
(detail `标签: 标签不存在`), which does not vary with, and hence does not
identify, the failing name. -/
theorem unknown_tag_failure_constant :
    (∀ (store : Store) (actor : Nat) (req : CreateRequest) (now : Int)
        (newId : Nat) (names : List String), req.tags = some names →
        names.length ≤ 3 → (∃ n ∈ names, tagGet store.registry n = none) →
        createOp store actor req now newId =
          (store,
            .error (ApiError.validationError tagField unknownTagMsg)))
  ∧ (∀ (store : Store) (pid : Nat) (patch : Bool) (req : UpdateRequest)
        (inst : Post) (a : String) (rest : List String),
        req.tags = some (a :: rest) → (a :: rest).length ≤ 3 →
        store.posts.find? (fun q => q.id == pid) = some inst →
        (∃ n ∈ a :: rest, tagGet store.registry n = none) →
        updateOp store pid patch req =
          (store,
            .error (ApiError.validationError tagField unknownTagMsg))) := by
  constructor
  · intro store actor req now newId names htags hlen hex
    cases names with
    | nil => rcases hex with ⟨n, hn, _⟩; simp at hn
    | cons a rest =>
      have h3 : ¬ 3 < (a :: rest).length := by omega
      simp only [createOp, htags]
      rw [if_neg h3, resolveTags_unknown _ _ hex]
      rfl
  · intro store pid patch req inst a rest htags hlen hf hex
    have hc : tagCountCheck patch req.tags = none := by
      rw [htags]
      dsimp only [tagCountCheck]
      rw [if_neg (by omega)]
    exact updateOp_resolve_err store pid patch req inst a rest _ hc hf htags
      (resolveTags_unknown _ _ hex)

/-- Concrete instantiation of the constant unknown-tag failure, on both
the create and the update path. -/
theorem unknown_tag_failure_constant_witness :
    createOp demoStore 1 reqUnknownA 0 100 =
      (demoStore, .error (ApiError.validationError tagField unknownTagMsg))
  ∧ updateOp demoStore2 42 false updUnknown =
      (demoStore2,
        .error (ApiError.validationError tagField unknownTagMsg)) :=
  ⟨unknown_tag_failure_constant.1 demoStore 1 reqUnknownA 0 100
     ["missing-a"] rfl (by decide) ⟨"missing-a", by decide, by decide⟩,
   unknown_tag_failure_constant.2 demoStore2 42 false updUnknown demoStored
     "missing-a" [] rfl (by decide) (by decide)
     ⟨"missing-a", by decide, by decide⟩⟩

/-- The count checks of `update` only ever produce the two tag
`ValidationError`s, never a 404. -/
theorem tagCountCheck_ne_notFound (patch : Bool)
    (t : Option (List String)) :
    tagCountCheck patch t ≠ some ApiError.notFound := by
  cases t with
  | none => cases patch <;> simp [tagCountCheck, emptyTagError]
  | some names =>
    cases names with
    | nil => simp [tagCountCheck, emptyTagError]
    | cons a rest =>
      dsimp only [tagCountCheck]
      split <;> simp [tooManyTagsError, emptyTagError]

/-- C10: in `update` the tag-count validation runs before the
post-existence lookup: a tag selection violating the count rules fails
with the corresponding tag `ValidationError` even when no post with the
id exists, and `NotFound` is reported only when the count rules pass. -/
theorem update_count_check_precedes_lookup :
    (∀ (store : Store) (pid : Nat) (patch : Bool) (req : UpdateRequest),
        store.posts.find? (fun q => q.id == pid) = none →
        req.tags = some [] →
        updateOp store pid patch req = (store, .error emptyTagError))
  ∧ (∀ (store : Store) (pid : Nat) (patch : Bool) (req : UpdateRequest)
        (names : List String),
        store.posts.find? (fun q => q.id == pid) = none →
        req.tags = some names → 3 < names.length →
        updateOp store pid patch req = (store, .error tooManyTagsError))
  ∧ (∀ (store : Store) (pid : Nat) (patch : Bool) (req : UpdateRequest),
        (updateOp store pid patch req).2 = .error ApiError.notFound →
        tagCountCheck patch req.tags = none) := by
  refine ⟨?_, ?_, ?_⟩
  · intro store pid patch req hf htags
    apply updateOp_count_err
    rw [htags]; rfl
  · intro store pid patch req names hf htags h3
    apply updateOp_count_err
    rw [htags]
    cases names with
    | nil => simp at h3
    | cons a rest =>
      dsimp only [tagCountCheck]
      rw [if_pos h3]
  · intro store pid patch req h
    cases hc : tagCountCheck patch req.tags with
    | none => rfl
    | some e2 =>
      rw [updateOp_count_err store pid patch req e2 hc] at h
      have he : e2 = ApiError.notFound := Except.error.inj h
      subst he
      exact absurd hc (tagCountCheck_ne_notFound patch req.tags)

/-- Concrete instantiation of the check order: on a store with no posts
at all, a bad tag count still yields the tag error, and the 404 only
appears once the count rules pass. -/
theorem update_count_check_precedes_lookup_witness :
    updateOp demoStore 42 true updEmptyTags =
      (demoStore, .error emptyTagError)
  ∧ updateOp demoStore 42 false updFourTags =
      (demoStore, .error tooManyTagsError)
  ∧ tagCountCheck true updNoTags.tags = none :=
  ⟨update_count_check_precedes_lookup.1 demoStore 42 true updEmptyTags
     rfl rfl,
   update_count_check_precedes_lookup.2.1 demoStore 42 false updFourTags
     ["a", "b", "c", "d"] rfl rfl (by decide),
   update_count_check_precedes_lookup.2.2 demoStore 42 true updNoTags rfl⟩

/-- Modelled from the spec: whether a post carries a registered tag with
the given name.  The tag filter itself is applied by the external
`DjangoFilterBackend` collaborator that `filter_fields = ('tags',)`
configures; the spec describes it as restricting "to posts containing at
least one of the named tags before ranking". -/
def hasTagNamed (registry : List Tag) (p : Post) (name : String) : Bool :=
  p.tags.any (fun tid => registry.any (fun t => t.id == tid && t.name == name))

/-- Modelled from the spec: the listing endpoint with its optional tag
filter — restrict to posts containing at least one of the named tags,
then rank with the listing order. -/
def listOp (registry : List Tag) (posts : List Post)
    (filterNames : Option (List String)) : List Post :=
  match filterNames with
  | none => listing posts
  | some names =>
    listing (posts.filter (fun p => names.any (hasTagNamed registry p)))

/-- C8: a listing request with a tag filter is restricted, before
ranking, to exactly the posts containing at least one of the named tags;
a listing request with no tag filter returns all posts. -/
theorem listing_tag_filter :
    (∀ (registry : List Tag) (posts : List Post),
        listOp registry posts none = listing posts)
  ∧ (∀ (registry : List Tag) (posts : List Post) (p : Post),
        p ∈ listOp registry posts none ↔ p ∈ posts)
  ∧ (∀ (registry : List Tag) (posts : List Post) (names : List String)
        (p : Post),
        p ∈ listOp registry posts (some names) ↔
          p ∈ posts ∧ names.any (hasTagNamed registry p) = true) := by
  refine ⟨fun _ _ => rfl, ?_, ?_⟩
  · intro registry posts p
    exact (listing_perm posts).mem_iff
  · intro registry posts names p
    constructor
    · intro h
      have h2 := (listing_perm _).mem_iff.mp h
      exact List.mem_filter.mp h2
    · intro h
      exact (listing_perm _).mem_iff.mpr (List.mem_filter.mpr h)

/-- A post that is not publicly visible, with a fresh reply. -/
def demoHidden : Post :=
  ⟨10, "H", 1, false, 9 * day, [], false, [10 * day - 600]⟩

/-- C9: `popular` draws its candidates only from the publicly visible
subset (the `Post.public` manager) while the general listing draws from
the unrestricted post set (`Post.objects`): a post that is not publicly
visible can still appear in the general listing but never appears in
`popular`. -/
theorem popular_public_only :
    (∀ (posts : List Post) (p : Post), p ∈ posts → p ∈ listing posts)
  ∧ (∀ (posts : List Post) (now : Int) (p : Post), p.public = false →
        p ∉ popular posts now) := by
  constructor
  · intro posts p h
    exact (listing_perm posts).mem_iff.mpr h
  · intro posts now p hpub hmem
    have h1 : p ∈ List.insertionSort popularLE
        ((posts.filter fun q => q.public).filter (popularPred now)) :=
      List.mem_of_mem_take hmem
    have h2 := (List.perm_insertionSort popularLE _).mem_iff.mp h1
    have h3 := (List.mem_filter.mp (List.mem_filter.mp h2).1).2
    rw [hpub] at h3
    exact Bool.noConfusion h3

/-- Concrete instantiation of the visibility split: a hidden post with a
fresh reply is listed by the general listing but absent from `popular`. -/
theorem popular_public_only_witness :
    demoHidden ∈ listing [demoHidden]
  ∧ demoHidden ∉ popular [demoHidden] (10 * day) :=
  ⟨popular_public_only.1 [demoHidden] demoHidden (by decide),
   popular_public_only.2 [demoHidden] (10 * day) demoHidden rfl⟩

end DjangoChina
